import Mathlib

set_option maxRecDepth 100000

/-!
Verification development for the EV-charger-placement demo repository
(`demo.py` and `demo_numpy.py`).

The repository formulates a facility-placement problem on a 2-D grid as a
QUBO.  `demo.py` assembles a BQM with explicit index loops; `demo_numpy.py`
builds a dense matrix with vectorized array operations.  This file gives a
shallow embedding of both construction paths, the scenario generator, the
command-line handling and the result decoding, and proves or refutes the
specified properties.  Real (floating-point) arithmetic is modelled by `ℚ`;
the float literals `4.0`, `1.7`, `3.0` of the source are taken at their
decimal values, which is the usual exact-real reading "up to floating-point
rounding".
-/

/-- A grid node: an integer coordinate pair, as produced by
`nx.grid_2d_graph`. -/
abbrev Node := ℤ × ℤ

/-- Squared Euclidean distance in the expanded form used by `demo.py`,
Constraint 1:
`cand[0]**2 - 2*cand[0]*loc[0] + loc[0]**2 + cand[1]**2 - 2*cand[1]*loc[1] + loc[1]**2`. -/
def sqDistExpanded (a b : Node) : ℚ :=
  (a.1 : ℚ) ^ 2 - 2 * (a.1 : ℚ) * (b.1 : ℚ) + (b.1 : ℚ) ^ 2
    + (a.2 : ℚ) ^ 2 - 2 * (a.2 : ℚ) * (b.2 : ℚ) + (b.2 : ℚ) ^ 2

/-- Negated squared Euclidean distance in the expanded form used by
`demo.py`, Constraints 2 and 3:
`-1*cand[0]**2 + 2*cand[0]*loc[0] - loc[0]**2 - cand[1]**2 + 2*cand[1]*loc[1] - loc[1]**2`. -/
def negSqDistExpanded (a b : Node) : ℚ :=
  -(a.1 : ℚ) ^ 2 + 2 * (a.1 : ℚ) * (b.1 : ℚ) - (b.1 : ℚ) ^ 2
    - (a.2 : ℚ) ^ 2 + 2 * (a.2 : ℚ) * (b.2 : ℚ) - (b.2 : ℚ) ^ 2

/-- Squared Euclidean distance as computed by `demo_numpy.py`:
`np.sum(diff**2, axis=2)` of coordinate differences. -/
def sqDistVec (a b : Node) : ℚ :=
  ((a.1 : ℚ) - (b.1 : ℚ)) ^ 2 + ((a.2 : ℚ) - (b.2 : ℚ)) ^ 2

/-- `np.mean` of a list of rationals (sum divided by length). -/
def listMean (l : List ℚ) : ℚ := l.sum / (l.length : ℚ)

/-- A fixed scenario, as handed to the QUBO constructions: the candidate
sequence, the POI list, the existing-charger list, and the requested number
of new chargers. -/
structure Scenario where
  candidates : List Node
  pois : List Node
  chargers : List Node
  numNew : ℕ

/-- `demo.py`, Constraint 1 (lines 77-85): for candidate `i`,
`ave_dist = Σ_(loc ∈ pois) dist / num_cs` and `bqm.linear[i] = ave_dist * gamma1`.
Note the source divides by `num_cs`, the number of existing chargers. -/
def demoConstraint1 (gamma1 : ℚ) (sc : Scenario) (i : Fin sc.candidates.length) : ℚ :=
  (sc.pois.map fun loc =>
    sqDistExpanded (sc.candidates.get i) loc / (sc.chargers.length : ℚ)).sum * gamma1

/-- `demo.py`, Constraint 2 (lines 88-96): for candidate `i`,
`ave_dist = Σ_(loc ∈ charging_stations) dist / num_poi` and
`bqm.linear[i] += ave_dist * gamma2`, where `dist` is the negated expanded
squared distance.  Note the source divides by `num_poi`. -/
def demoConstraint2 (gamma2 : ℚ) (sc : Scenario) (i : Fin sc.candidates.length) : ℚ :=
  (sc.chargers.map fun loc =>
    negSqDistExpanded (sc.candidates.get i) loc / (sc.pois.length : ℚ)).sum * gamma2

/-- Linear (diagonal) coefficient of the `demo.py` BQM after all four terms:
Constraint 1 plus Constraint 2 plus the linear bias `gamma4 * (1 - 2*k)`
contributed by `dimod.generators.combinations(_, num_new_cs, strength=gamma4)`. -/
def demoLinear (gamma1 gamma2 gamma4 : ℚ) (sc : Scenario)
    (i : Fin sc.candidates.length) : ℚ :=
  demoConstraint1 gamma1 sc i + demoConstraint2 gamma2 sc i
    + gamma4 * (1 - 2 * (sc.numNew : ℚ))

/-- Quadratic bias of the `demo.py` BQM for the unordered pair `(i, j)`,
`i < j`: Constraint 3's `add_interaction(i, j, dist * gamma3)` with `dist`
the negated expanded squared distance, plus the quadratic bias `2 * gamma4`
from `dimod.generators.combinations`. -/
def demoQuadTotal (gamma3 gamma4 : ℚ) (sc : Scenario)
    (i j : Fin sc.candidates.length) : ℚ :=
  negSqDistExpanded (sc.candidates.get i) (sc.candidates.get j) * gamma3
    + 2 * gamma4

/-- `demo.py` builds its grid as `nx.grid_2d_graph(14, 15)`; the tunable
weights are all derived from `len(G.nodes())`. -/
def demoGridNodeCount : ℕ := 14 * 15

/-- Constraint 1 of `build_qubo_vectorized`: add
`avg_dist * gamma1` on the diagonal, with `avg_dist` the mean squared
distance from candidate `i` to the POIs. -/
def quboTerm1 (cands pois : List Node) (gamma1 : ℚ) :
    Matrix (Fin cands.length) (Fin cands.length) ℚ :=
  Matrix.diagonal fun i =>
    listMean (pois.map fun p => sqDistVec (cands.get i) p) * gamma1

/-- Constraint 2 of `build_qubo_vectorized`: add
`-avg_dist_cs * gamma2` on the diagonal. -/
def quboTerm2 (cands cs : List Node) (gamma2 : ℚ) :
    Matrix (Fin cands.length) (Fin cands.length) ℚ :=
  Matrix.diagonal fun i =>
    -listMean (cs.map fun s => sqDistVec (cands.get i) s) * gamma2

/-- Constraint 3 of `build_qubo_vectorized`: `Q += -gamma3 * dists_candidates`
over the whole matrix (its diagonal contribution is `-gamma3 * 0`). -/
def quboTerm3 (cands : List Node) (gamma3 : ℚ) :
    Matrix (Fin cands.length) (Fin cands.length) ℚ :=
  Matrix.of fun i j => -gamma3 * sqDistVec (cands.get i) (cands.get j)

/-- Constraint 4 of `build_qubo_vectorized`: `gamma4 * (1 - 2*num_new_cs)`
added to the diagonal and `2 * gamma4` added to every off-diagonal entry. -/
def quboTerm4 (n : ℕ) (gamma4 : ℚ) (k : ℕ) : Matrix (Fin n) (Fin n) ℚ :=
  Matrix.diagonal (fun _ => gamma4 * (1 - 2 * (k : ℚ)))
    + Matrix.of fun i j => if i = j then 0 else 2 * gamma4

/-- The QUBO assembly of `build_qubo_vectorized` with the four weights as
parameters: the sum of the four constraint matrices. -/
def build_qubo_core (gamma1 gamma2 gamma3 gamma4 : ℚ)
    (cands pois cs : List Node) (k : ℕ) :
    Matrix (Fin cands.length) (Fin cands.length) ℚ :=
  quboTerm1 cands pois gamma1 + quboTerm2 cands cs gamma2
    + quboTerm3 cands gamma3 + quboTerm4 cands.length gamma4 k

/-- `build_qubo_vectorized(potential_new_cs_nodes, num_poi, pois, num_cs,
charging_stations, num_new_cs)` from `demo_numpy.py`, with its weights
`gamma1 = n * 4.0`, `gamma2 = n / 3.0`, `gamma3 = n * 1.7`, `gamma4 = n**3`
where `n` is the number of candidate nodes.  The parameters `num_poi` and
`num_cs` appear in the source signature but are never used in the body. -/
def build_qubo_vectorized (cands : List Node) (num_poi : ℕ) (pois : List Node)
    (num_cs : ℕ) (cs : List Node) (num_new_cs : ℕ) :
    Matrix (Fin cands.length) (Fin cands.length) ℚ :=
  build_qubo_core ((cands.length : ℚ) * 4) ((cands.length : ℚ) / 3)
    ((cands.length : ℚ) * 17 / 10) ((cands.length : ℚ) ^ 3)
    cands pois cs num_new_cs

/-- Value of a solution bit as it enters the objective (`BINARY` variables:
`0` or `1`). -/
def bitVal (b : Bool) : ℚ := if b then 1 else 0

/-- Number of bits set to one in an assignment. -/
def countOnes {n : ℕ} (x : Fin n → Bool) : ℕ :=
  ∑ i, if x i then 1 else 0

/-- The unordered index pairs of a QUBO matrix, represented by their sorted
representatives `(i, j)` with `i < j`. -/
def pairsFin (n : ℕ) : Finset (Fin n × Fin n) :=
  Finset.univ.filter fun p => p.1 < p.2

/-- QUBO energy convention of the spec's data model: diagonal entries are
linear coefficients counted once per selected candidate, and each unordered
pair contributes its interaction coefficient once. -/
def quboEnergy {n : ℕ} (Q : Matrix (Fin n) (Fin n) ℚ) (x : Fin n → Bool) : ℚ :=
  (∑ i, Q i i * bitVal (x i))
    + ∑ p ∈ pairsFin n, Q p.1 p.2 * (bitVal (x p.1) * bitVal (x p.2))

/-- Objective contribution of Constraint 4 (the cardinality term) alone,
with `demo_numpy.py`'s weight `gamma4 = n**3`, read back by the QUBO energy
convention. -/
def cardContribution (n k : ℕ) (x : Fin n → Bool) : ℚ :=
  quboEnergy (quboTerm4 n ((n : ℚ) ^ 3) k) x

/-- The nodes of `nx.grid_2d_graph(w, h)`: all integer pairs `(x, y)` with
`0 ≤ x < w`, `0 ≤ y < h`, in column-major enumeration order. -/
def gridNodes : ℕ → ℕ → List Node
  | 0, _ => []
  | w + 1, h => gridNodes w h ++ (List.range h).map fun y : ℕ => ((w : ℤ), (y : ℤ))

/-- The candidate sequence of `set_up_scenario` (`demo_numpy.py` line 44) and
of `demo.py` line 70: `list(set(nodes) - set(charging_stations))`.  Python
set difference has an unspecified iteration order; this embedding realizes
it as the grid enumeration order restricted to non-charger nodes, which
represents one admissible order (all properties claimed of it are
order-independent). -/
def potential_new_cs_nodes (w h : ℕ) (cs : List Node) : List Node :=
  (gridNodes w h).filter fun v => decide (v ∉ cs)

/-- Parsed command-line arguments of `demo_numpy.py` (`argparse`, all of
`type=int`, hence arbitrary integers). -/
structure Args where
  width : ℤ
  height : ℤ
  poi : ℤ
  chargers : ℤ
  new_chargers : ℤ
deriving DecidableEq

/-- `read_in_args` (`demo_numpy.py` lines 24-36): if the POI count exceeds
`width*height`, or chargers plus new chargers exceed `width*height`, print
`Grid size is not large enough for scenario.` and `exit(0)`; otherwise
return the arguments. -/
def read_in_args (a : Args) : Except (String × ℕ) Args :=
  if a.poi > a.width * a.height ∨ a.chargers + a.new_chargers > a.width * a.height then
    .error ("Grid size is not large enough for scenario.", 0)
  else
    .ok a

/-- Outcome of a `demo_numpy.py` run up to the solver call: either the early
infeasibility exit (message and exit status, nothing built), or the QUBO
matrix that was built and submitted to the external solver. -/
inductive NumpyOutcome where
  | earlyExit (msg : String) (status : ℕ)
  | submitted (q : List (List ℚ))
deriving DecidableEq

/-- A matrix flattened to its list of rows. -/
def matrixRows {n : ℕ} (Q : Matrix (Fin n) (Fin n) ℚ) : List (List ℚ) :=
  (List.finRange n).map fun i => (List.finRange n).map fun j => Q i j

/-- The `__main__` block of `demo_numpy.py` up to the solver submission.
The random draws of `set_up_scenario` are supplied as the `pois` and `cs`
parameters; the candidate list is the set difference computed by
`set_up_scenario`. -/
def main_numpy (a : Args) (pois cs : List Node) : NumpyOutcome :=
  match read_in_args a with
  | .error (m, s) => .earlyExit m s
  | .ok a' =>
      let cands := potential_new_cs_nodes a'.width.toNat a'.height.toNat cs
      .submitted (matrixRows
        (build_qubo_vectorized cands a'.poi.toNat pois a'.chargers.toNat cs
          a'.new_chargers.toNat))

/-- The list comprehension
`[potential_new_cs_nodes[i] for i, bit in enumerate(config) if bit == 1]`
(`demo_numpy.py` line 114), including Python's `IndexError` when a selected
index falls outside the candidate list. -/
def selectLoop (cands : List Node) : List ℕ → ℕ → Except String (List Node)
  | [], _ => .ok []
  | bit :: rest, i =>
      if bit = 1 then
        match cands.get? i with
        | none => .error "IndexError"
        | some c => (selectLoop cands rest (i + 1)).map fun l => c :: l
      else
        selectLoop cands rest (i + 1)

/-- Result decoding of `demo_numpy.py` (lines 112-114).  The solver response
is modelled as an optional named sub-object optionally holding a
`configuration` bit list: `response.get('QdeepHybridSolver', ...)` with a
dict default, then `solution.get('configuration', [])`. -/
def numpyDecode (cands : List Node) (resp : Option (Option (List ℕ))) :
    Except String (List Node) :=
  let solution := resp.getD none
  let config := solution.getD []
  selectLoop cands config 0

/-- Whether an `Except` result is an error. -/
def exceptIsError {ε α : Type} (e : Except ε α) : Bool :=
  match e with
  | .error _ => true
  | .ok _ => false

/-- Result decoding and summary computation of `demo.py` (lines 116-133).
`sampleset.first` raises on an empty sampleset (modelled by `none`);
otherwise the selected nodes are read off, and the summary block then
indexes `new_charging_nodes[0]` and `new_charging_nodes[1]`, raising
`IndexError` when fewer than two bits are set. -/
def demoDecode (cands : List Node) (sample : Option (List Bool)) :
    Except String (List Node) :=
  match sample with
  | none => .error "ValueError"
  | some bits =>
      let sel := ((cands.zip bits).filterMap fun p => if p.2 then some p.1 else none)
      if sel.length < 2 then .error "IndexError" else .ok sel

/-- One decimal-digit character. -/
def isDigitCh (c : Char) : Bool := decide ('0' ≤ c ∧ c ≤ '9')

/-- Numeric value of a nonempty all-digit character list, read left to
right. -/
def digitsVal (l : List Char) : ℕ :=
  l.foldl (fun n c => 10 * n + (c.toNat - '0'.toNat)) 0

/-- Parse a nonempty run of decimal digits, rejecting anything else. -/
def parseDigits (l : List Char) : Option ℕ :=
  if l ≠ [] ∧ l.all isDigitCh then some (digitsVal l) else none

/-- Model of Python's `int(s)` as invoked by `argparse` with `type=int`:
an optional sign followed by decimal digits; anything else raises
`ValueError`, which `argparse` turns into a usage error. -/
def pyInt (s : String) : Option ℤ :=
  match s.data with
  | '-' :: rest => (parseDigits rest).map fun m => -(m : ℤ)
  | '+' :: rest => (parseDigits rest).map fun m => (m : ℤ)
  | l => (parseDigits l).map fun m => (m : ℤ)

/-- Outcome of the seed handling at the top of `demo.py`: proceed into the
scenario (with an optional seed), exit through `argparse`'s usage error
(`SystemExit(2)`), or exit through the script's own message branch. -/
inductive SeedOutcome where
  | proceed (seed : Option ℤ)
  | usageExit (status : ℕ)
  | messageExit (msg : String) (status : ℕ)
deriving DecidableEq

/-- The seed check of `demo.py` lines 35-41, operating on the value
`argparse` delivers for `args.seed` (an integer or `None`).  The final
`else` branch of the source (print `Seed must be an integer.` and
`sys.exit(0)`) can never match, because `args.seed` is always either an
integer or `None` after parsing. -/
def seed_check (seed : Option ℤ) : SeedOutcome :=
  match seed with
  | some z => .proceed (some z)
  | none => .proceed none

/-- The full seed pipeline of `demo.py`: `argparse` first converts the raw
`-s` value with `int`, exiting with status 2 on failure; only then does the
script's own `isinstance` check (`seed_check`) run. -/
def demo_seed_pipeline (arg : Option String) : SeedOutcome :=
  match arg with
  | none => seed_check none
  | some s =>
      match pyInt s with
      | some z => seed_check (some z)
      | none => .usageExit 2

/-- The POIs of the concrete 14x15 comparison scenario. -/
def cexPois : List Node := [(0, 0), (0, 1), (0, 2)]

/-- The existing chargers of the concrete 14x15 comparison scenario. -/
def cexCS : List Node := [(13, 11), (13, 12), (13, 13), (13, 14)]

/-- Candidate sequence of the comparison scenario: the 206 nodes of the
14x15 grid of `demo.py` that are not existing chargers. -/
def cexCandidates : List Node := potential_new_cs_nodes 14 15 cexCS

/-- The comparison scenario itself: `demo.py`'s grid and parameters
(`num_poi = 3`, `num_cs = 4`, `num_new_cs = 2`) with the draws above. -/
def cexScenario : Scenario := ⟨cexCandidates, cexPois, cexCS, 2⟩

/-- Index of candidate `(0, 0)` in the comparison scenario. -/
def cexIdx : Fin cexCandidates.length := ⟨0, by decide⟩

/-- `gamma1 = len(G.nodes()) * 2` of `demo.py`. -/
def demoGamma1 : ℚ := (demoGridNodeCount : ℚ) * 2

/-- `gamma2 = len(G.nodes()) / 3` of `demo.py`. -/
def demoGamma2 : ℚ := (demoGridNodeCount : ℚ) / 3

/-- `gamma3 = len(G.nodes()) * 0.6` of `demo.py`. -/
def demoGamma3 : ℚ := (demoGridNodeCount : ℚ) * 6 / 10

/-- `gamma4 = len(G.nodes()) ** 2` of `demo.py`. -/
def demoGamma4 : ℚ := (demoGridNodeCount : ℚ) ^ 2

/-- Candidate list of the small witness scenario. -/
def wCands : List Node := [(0, 0), (1, 0)]

/-- POI list of the small witness scenario. -/
def wPois : List Node := [(0, 1)]

/-- Existing-charger list of the small witness scenario. -/
def wCS : List Node := [(2, 2)]

/-- The small witness scenario (one POI, one charger, one new charger). -/
def wScenario : Scenario := ⟨wCands, wPois, wCS, 1⟩

/-- First index of the witness scenario. -/
def wIdx0 : Fin wCands.length := ⟨0, by decide⟩

/-- Second index of the witness scenario. -/
def wIdx1 : Fin wCands.length := ⟨1, by decide⟩

/-- Infeasible argument vector: a 2x2 grid with 5 POIs requested
(chargers and new-charger counts at their defaults). -/
def wInfArgs : Args := ⟨2, 2, 5, 4, 2⟩

theorem sqDistExpanded_eq (a b : Node) : sqDistExpanded a b = sqDistVec a b := by
  unfold sqDistExpanded sqDistVec
  ring

theorem negSqDistExpanded_eq (a b : Node) :
    negSqDistExpanded a b = -sqDistVec a b := by
  unfold negSqDistExpanded sqDistVec
  ring

theorem sqDistVec_comm (a b : Node) : sqDistVec a b = sqDistVec b a := by
  unfold sqDistVec
  ring

theorem sqDistVec_self (a : Node) : sqDistVec a a = 0 := by
  unfold sqDistVec
  ring

theorem sum_map_div {α : Type} (l : List α) (f : α → ℚ) (c : ℚ) :
    (l.map fun a => f a / c).sum = (l.map f).sum / c := by
  induction l with
  | nil => simp
  | cons x xs ih => simp [ih, add_div]

theorem sum_map_neg {α : Type} (l : List α) (f : α → ℚ) :
    (l.map fun a => -f a).sum = -(l.map f).sum := by
  induction l with
  | nil => simp
  | cons x xs ih =>
    simp [ih]
    ring

theorem quboTerm4_diag (n : ℕ) (g4 : ℚ) (k : ℕ) (i : Fin n) :
    quboTerm4 n g4 k i i = g4 * (1 - 2 * (k : ℚ)) := by
  unfold quboTerm4
  simp [Matrix.add_apply, Matrix.diagonal_apply_eq, Matrix.of_apply]

theorem quboTerm4_off (n : ℕ) (g4 : ℚ) (k : ℕ) {i j : Fin n} (h : i ≠ j) :
    quboTerm4 n g4 k i j = 2 * g4 := by
  unfold quboTerm4
  simp [Matrix.add_apply, Matrix.diagonal_apply_ne _ h, Matrix.of_apply, h]

theorem sum_bitVal {n : ℕ} (x : Fin n → Bool) :
    ∑ i, bitVal (x i) = (countOnes x : ℚ) := by
  unfold countOnes
  push_cast
  refine Finset.sum_congr rfl fun i _ => ?_
  by_cases h : x i <;> simp [h, bitVal]

theorem bitVal_mul_self (b : Bool) : bitVal b * bitVal b = bitVal b := by
  cases b <;> simp [bitVal]

theorem pairs_mul_sum {n : ℕ} (b : Fin n → ℚ) :
    2 * ∑ p ∈ pairsFin n, b p.1 * b p.2
      = (∑ i, b i) ^ 2 - ∑ i, b i * b i := by
  have hprod : (∑ i, b i) ^ 2 = ∑ p : Fin n × Fin n, b p.1 * b p.2 := by
    rw [sq, Fintype.sum_mul_sum, Fintype.sum_prod_type]
  have hsplit :
      (∑ p ∈ Finset.univ.filter (fun p : Fin n × Fin n => p.1 < p.2), b p.1 * b p.2)
        + ∑ p ∈ Finset.univ.filter (fun p : Fin n × Fin n => ¬p.1 < p.2), b p.1 * b p.2
        = ∑ p : Fin n × Fin n, b p.1 * b p.2 :=
    Finset.sum_filter_add_sum_filter_not _ _ _
  have hsplit2 :
      (∑ p ∈ (Finset.univ.filter fun p : Fin n × Fin n => ¬p.1 < p.2).filter
          (fun p => p.2 < p.1), b p.1 * b p.2)
        + ∑ p ∈ (Finset.univ.filter fun p : Fin n × Fin n => ¬p.1 < p.2).filter
            (fun p => ¬p.2 < p.1), b p.1 * b p.2
        = ∑ p ∈ Finset.univ.filter (fun p : Fin n × Fin n => ¬p.1 < p.2), b p.1 * b p.2 :=
    Finset.sum_filter_add_sum_filter_not _ _ _
  have hgt : (Finset.univ.filter fun p : Fin n × Fin n => ¬p.1 < p.2).filter
      (fun p => p.2 < p.1) = Finset.univ.filter fun p : Fin n × Fin n => p.2 < p.1 := by
    ext p
    simp only [Finset.mem_filter, Finset.mem_univ, true_and]
    exact ⟨fun h => h.2, fun h => ⟨asymm h, h⟩⟩
  have hdiagset : (Finset.univ.filter fun p : Fin n × Fin n => ¬p.1 < p.2).filter
      (fun p => ¬p.2 < p.1) = Finset.univ.filter fun p : Fin n × Fin n => p.1 = p.2 := by
    ext p
    simp only [Finset.mem_filter, Finset.mem_univ, true_and]
    constructor
    · rintro ⟨h1, h2⟩
      exact le_antisymm (not_lt.mp h2) (not_lt.mp h1)
    · intro h
      constructor
      · rw [h]; exact lt_irrefl _
      · rw [h]; exact lt_irrefl _
  have hswap : ∑ p ∈ Finset.univ.filter (fun p : Fin n × Fin n => p.2 < p.1), b p.1 * b p.2
      = ∑ p ∈ Finset.univ.filter (fun p : Fin n × Fin n => p.1 < p.2), b p.1 * b p.2 := by
    refine Finset.sum_nbij' Prod.swap Prod.swap ?_ ?_ ?_ ?_ ?_
    · intro p hp
      simp only [Finset.mem_filter, Finset.mem_univ, true_and] at hp ⊢
      exact hp
    · intro p hp
      simp only [Finset.mem_filter, Finset.mem_univ, true_and] at hp ⊢
      exact hp
    · intro p _
      exact Prod.swap_swap p
    · intro p _
      exact Prod.swap_swap p
    · intro p _
      exact mul_comm _ _
  have hdiag : ∑ p ∈ Finset.univ.filter (fun p : Fin n × Fin n => p.1 = p.2), b p.1 * b p.2
      = ∑ i, b i * b i := by
    refine Finset.sum_nbij' Prod.fst (fun i => (i, i)) ?_ ?_ ?_ ?_ ?_
    · intro p _
      exact Finset.mem_univ _
    · intro i _
      simp only [Finset.mem_filter, Finset.mem_univ, true_and]
    · intro p hp
      simp only [Finset.mem_filter, Finset.mem_univ, true_and] at hp
      exact Prod.ext rfl hp
    · intro i _
      rfl
    · intro p hp
      simp only [Finset.mem_filter, Finset.mem_univ, true_and] at hp
      rw [← hp]
  unfold pairsFin
  rw [hgt, hdiagset] at hsplit2
  rw [hswap, hdiag] at hsplit2
  linarith [hprod, hsplit, hsplit2]

theorem cardContribution_eq (n k : ℕ) (x : Fin n → Bool) :
    cardContribution n k x
      = (n : ℚ) ^ 3 * (((countOnes x : ℚ) - (k : ℚ)) ^ 2 - (k : ℚ) ^ 2) := by
  unfold cardContribution quboEnergy
  have h1 : ∀ i ∈ (Finset.univ : Finset (Fin n)),
      quboTerm4 n ((n : ℚ) ^ 3) k i i * bitVal (x i)
        = (n : ℚ) ^ 3 * (1 - 2 * (k : ℚ)) * bitVal (x i) := by
    intro i _
    rw [quboTerm4_diag]
  have h2 : ∀ p ∈ pairsFin n,
      quboTerm4 n ((n : ℚ) ^ 3) k p.1 p.2 * (bitVal (x p.1) * bitVal (x p.2))
        = 2 * (n : ℚ) ^ 3 * (bitVal (x p.1) * bitVal (x p.2)) := by
    intro p hp
    have hlt : p.1 < p.2 := by
      simpa [pairsFin] using hp
    rw [quboTerm4_off n _ k (ne_of_lt hlt)]
  rw [Finset.sum_congr rfl h1, Finset.sum_congr rfl h2, ← Finset.mul_sum, ← Finset.mul_sum,
    sum_bitVal]
  have hp2 := pairs_mul_sum (fun i => bitVal (x i))
  have hsq : (∑ i, bitVal (x i) * bitVal (x i)) = (countOnes x : ℚ) := by
    rw [Finset.sum_congr rfl fun i _ => bitVal_mul_self (x i), sum_bitVal]
  simp only [hsq, sum_bitVal] at hp2
  linear_combination ((n : ℚ) ^ 3) * hp2

theorem gridNodes_succ (w h : ℕ) :
    gridNodes (w + 1) h
      = gridNodes w h ++ (List.range h).map fun y : ℕ => ((w : ℤ), (y : ℤ)) := rfl

theorem length_gridNodes (w h : ℕ) : (gridNodes w h).length = w * h := by
  induction w with
  | zero => simp [gridNodes]
  | succ w ih =>
    rw [gridNodes_succ, List.length_append, List.length_map, List.length_range, ih, Nat.succ_mul]

theorem mem_gridNodes_fst_lt {w h : ℕ} {p : Node} (hp : p ∈ gridNodes w h) :
    p.1 < (w : ℤ) := by
  induction w with
  | zero => simp [gridNodes] at hp
  | succ w ih =>
    rw [gridNodes_succ] at hp
    simp only [List.mem_append, List.mem_map, List.mem_range] at hp
    rcases hp with hp | ⟨y, hy, rfl⟩
    · have h1 := ih hp
      push_cast
      linarith
    · push_cast
      linarith

theorem nodup_gridNodes (w h : ℕ) : (gridNodes w h).Nodup := by
  induction w with
  | zero => simp [gridNodes]
  | succ w ih =>
    rw [gridNodes_succ, List.nodup_append]
    refine ⟨ih, ?_, ?_⟩
    · refine List.Nodup.map ?_ (List.nodup_range h)
      intro a b hab
      have h2 := congrArg Prod.snd hab
      simp only at h2
      exact_mod_cast h2
    · intro p hp1 hp2
      have h1 := mem_gridNodes_fst_lt hp1
      simp only [List.mem_map, List.mem_range] at hp2
      rcases hp2 with ⟨y, hy, rfl⟩
      simp at h1

theorem length_filter_not_mem {l s : List Node} (hl : l.Nodup) (hs : s.Nodup)
    (hsub : ∀ x ∈ s, x ∈ l) :
    (l.filter fun v => decide (v ∉ s)).length = l.length - s.length := by
  have hperm := List.filter_append_perm (fun v => decide (v ∈ s)) l
  have hnot : (fun v : Node => !decide (v ∈ s)) = fun v => decide (v ∉ s) := by
    funext v
    simp [decide_not]
  rw [hnot] at hperm
  have hlen := hperm.length_eq
  rw [List.length_append] at hlen
  have hmemlen : (l.filter fun v => decide (v ∈ s)).length = s.length := by
    have hnd : (l.filter fun v => decide (v ∈ s)).Nodup := hl.filter _
    have hp : List.Perm (l.filter fun v => decide (v ∈ s)) s := by
      rw [List.perm_ext_iff_of_nodup hnd hs]
      intro a
      simp only [List.mem_filter, decide_eq_true_eq]
      exact ⟨fun h => h.2, fun h => ⟨hsub a h, h⟩⟩
    exact hp.length_eq
  omega

theorem nodup_count_one {α : Type} [BEq α] [LawfulBEq α] {l : List α} (d : l.Nodup)
    {a : α} (h : a ∈ l) : List.count a l = 1 := by
  induction l with
  | nil => simp at h
  | cons x xs ih =>
    rcases List.mem_cons.mp h with rfl | hmem
    · have hx : a ∉ xs := (List.nodup_cons.mp d).1
      rw [List.count_cons_self, List.count_eq_zero.mpr hx]
    · have hne : a ≠ x := by
        rintro rfl
        exact (List.nodup_cons.mp d).1 hmem
      rw [List.count_cons_of_ne hne, ih (List.nodup_cons.mp d).2 hmem]

/-- C1 (counterexample): the loop-based `demo.py` construction and the
vectorized `demo_numpy.py` construction do not produce identical
coefficient matrices on an identical scenario.  On `demo.py`'s own 14x15
grid with POIs (0,0),(0,1),(0,2), chargers (13,11),(13,12),(13,13),(13,14)
and two new chargers, the diagonal (linear) entry of candidate `(0,0)`
already differs between the two constructions: the two paths use different
weight schemes and `demo.py` divides the POI term by the charger count. -/
theorem C1_counterexample :
    demoLinear demoGamma1 demoGamma2 demoGamma4 cexScenario cexIdx ≠
      build_qubo_vectorized cexCandidates 3 cexPois 4 cexCS 2 cexIdx cexIdx := by
  have hget : cexCandidates.get cexIdx = (0, 0) := by decide
  have hlen : cexCandidates.length = 206 := by decide
  show demoLinear demoGamma1 demoGamma2 demoGamma4 ⟨cexCandidates, cexPois, cexCS, 2⟩ cexIdx ≠ _
  unfold demoLinear demoConstraint1 demoConstraint2 build_qubo_vectorized build_qubo_core
    quboTerm1 quboTerm2 quboTerm3 quboTerm4
  simp only [Matrix.add_apply, Matrix.diagonal_apply_eq, Matrix.of_apply, if_pos rfl,
    hget, hlen, cexPois, cexCS, sqDistExpanded, negSqDistExpanded, sqDistVec, listMean,
    demoGamma1, demoGamma2, demoGamma4, demoGridNodeCount]
  norm_num [List.map, List.sum_cons]

/-- C1 (amended): the two constructions agree only under the following
reconciliation: with one common set of weights for both paths, and with a
scenario whose POI count equals its existing-charger count (so that
`demo.py`'s swapped divisors coincide with the means), every diagonal entry
of the vectorized matrix equals the loop-built linear bias, and for every
unordered pair the total vectorized interaction `Q[i,j] + Q[j,i]` equals
twice the loop-built quadratic bias.  With each program's actual weights
(and unequal POI/charger counts) the matrices differ, as shown by the
counterexample. -/
theorem C1_amended_equivalence (g1 g2 g3 g4 : ℚ) (sc : Scenario)
    (i j : Fin sc.candidates.length)
    (hp : 0 < sc.pois.length) (hc : 0 < sc.chargers.length)
    (hlen : sc.pois.length = sc.chargers.length) (hij : i ≠ j) :
    demoLinear g1 g2 g4 sc i
        = build_qubo_core g1 g2 g3 g4 sc.candidates sc.pois sc.chargers sc.numNew i i
      ∧ build_qubo_core g1 g2 g3 g4 sc.candidates sc.pois sc.chargers sc.numNew i j
          + build_qubo_core g1 g2 g3 g4 sc.candidates sc.pois sc.chargers sc.numNew j i
          = 2 * demoQuadTotal g3 g4 sc i j := by
  have hcast : (sc.pois.length : ℚ) = (sc.chargers.length : ℚ) := by exact_mod_cast hlen
  constructor
  · unfold demoLinear demoConstraint1 demoConstraint2 build_qubo_core quboTerm1 quboTerm2
      quboTerm3 quboTerm4 listMean
    simp only [Matrix.add_apply, Matrix.diagonal_apply_eq, Matrix.of_apply,
      sqDistExpanded_eq, negSqDistExpanded_eq, sqDistVec_self, List.length_map,
      eq_self_iff_true, if_true]
    rw [sum_map_div sc.pois (fun loc => sqDistVec (sc.candidates.get i) loc)
        ((sc.chargers.length : ℚ)),
      sum_map_div sc.chargers (fun loc => -sqDistVec (sc.candidates.get i) loc)
        ((sc.pois.length : ℚ)),
      sum_map_neg]
    rw [hcast]
    ring
  · unfold build_qubo_core quboTerm1 quboTerm2 quboTerm3 quboTerm4 demoQuadTotal
    simp only [Matrix.add_apply, Matrix.of_apply, Matrix.diagonal_apply_ne _ hij,
      Matrix.diagonal_apply_ne _ hij.symm, if_neg hij, if_neg hij.symm,
      negSqDistExpanded_eq]
    rw [sqDistVec_comm (sc.candidates.get j) (sc.candidates.get i)]
    ring

/-- C1 (witness for the amended statement): instantiated on the small
scenario with candidates (0,0),(1,0), one POI (0,1), one charger (2,2),
one new charger, and common weights `1, 1, 1, 1`. -/
theorem C1_amended_equivalence_witness :
    0 < wScenario.pois.length ∧ 0 < wScenario.chargers.length
      ∧ wScenario.pois.length = wScenario.chargers.length ∧ wIdx0 ≠ wIdx1
      ∧ (demoLinear 1 1 1 wScenario wIdx0
          = build_qubo_core 1 1 1 1 wScenario.candidates wScenario.pois
              wScenario.chargers wScenario.numNew wIdx0 wIdx0
        ∧ build_qubo_core 1 1 1 1 wScenario.candidates wScenario.pois
              wScenario.chargers wScenario.numNew wIdx0 wIdx1
            + build_qubo_core 1 1 1 1 wScenario.candidates wScenario.pois
                wScenario.chargers wScenario.numNew wIdx1 wIdx0
            = 2 * demoQuadTotal 1 1 wScenario wIdx0 wIdx1) :=
  ⟨by decide, by decide, by decide, by decide,
    C1_amended_equivalence 1 1 1 1 wScenario wIdx0 wIdx1
      (by decide) (by decide) (by decide) (by decide)⟩

/-- C3 (evaluation at the failing input): in `demo.py`, the proximity term
of candidate `(0,0)` with POIs (0,0),(0,1),(0,2) and four chargers equals
`gamma1 * (sum of squared distances) / 4 = 525`, not
`gamma1 * mean over POIs = gamma1 * (sum / 3) = 700` as the claim states:
the source divides by `num_cs` instead of the POI count.  (The vectorized
`demo_numpy.py` path does use the POI mean.) -/
theorem C3_code_bug_eval :
    demoConstraint1 demoGamma1 cexScenario cexIdx = 525
      ∧ demoGamma1 * listMean (cexScenario.pois.map fun p =>
          sqDistVec (cexScenario.candidates.get cexIdx) p) = 700
      ∧ (525 : ℚ) ≠ 700 := by
  refine ⟨?_, ?_, by norm_num⟩
  · have hget : cexCandidates.get cexIdx = (0, 0) := by decide
    show demoConstraint1 demoGamma1 ⟨cexCandidates, cexPois, cexCS, 2⟩ cexIdx = 525
    unfold demoConstraint1
    simp only [hget, cexPois, cexCS, sqDistExpanded, demoGamma1, demoGridNodeCount]
    norm_num [List.map, List.sum_cons]
  · have hget : cexCandidates.get cexIdx = (0, 0) := by decide
    show demoGamma1 * listMean (cexPois.map fun p =>
        sqDistVec (cexCandidates.get cexIdx) p) = 700
    unfold listMean
    simp only [hget, cexPois, sqDistVec, demoGamma1, demoGridNodeCount]
    norm_num [List.map, List.sum_cons]

/-- C4 (evaluation at the failing input): in `demo.py`, the
existing-charger term of candidate `(0,0)` with chargers
(13,11),(13,12),(13,13),(13,14) and three POIs equals
`gamma2 * (-sum of squared distances) / 3 = -91420/3`, not
`-gamma2 * mean over chargers = -gamma2 * (sum / 4) = -22855` as the claim
states: the source divides by `num_poi` instead of the charger count.
(The vectorized `demo_numpy.py` path does use the charger mean.) -/
theorem C4_code_bug_eval :
    demoConstraint2 demoGamma2 cexScenario cexIdx = -91420 / 3
      ∧ -(demoGamma2 * listMean (cexScenario.chargers.map fun s =>
          sqDistVec (cexScenario.candidates.get cexIdx) s)) = -22855
      ∧ (-91420 / 3 : ℚ) ≠ -22855 := by
  refine ⟨?_, ?_, by norm_num⟩
  · have hget : cexCandidates.get cexIdx = (0, 0) := by decide
    show demoConstraint2 demoGamma2 ⟨cexCandidates, cexPois, cexCS, 2⟩ cexIdx = -91420 / 3
    unfold demoConstraint2
    simp only [hget, cexPois, cexCS, negSqDistExpanded, demoGamma2, demoGridNodeCount]
    norm_num [List.map, List.sum_cons]
  · have hget : cexCandidates.get cexIdx = (0, 0) := by decide
    show -(demoGamma2 * listMean (cexCS.map fun s =>
        sqDistVec (cexCandidates.get cexIdx) s)) = -22855
    unfold listMean
    simp only [hget, cexCS, sqDistVec, demoGamma2, demoGridNodeCount]
    norm_num [List.map, List.sum_cons]

/-- C5: the matrix returned by `build_qubo_vectorized` is symmetric:
`Q[i,j] = Q[j,i]` for every valid input and all `i ≠ j`. -/
theorem C5_symmetry (cands : List Node) (np0 : ℕ) (pois : List Node) (nc0 : ℕ)
    (cs : List Node) (k : ℕ) (i j : Fin cands.length) (hij : i ≠ j) :
    build_qubo_vectorized cands np0 pois nc0 cs k i j
      = build_qubo_vectorized cands np0 pois nc0 cs k j i := by
  unfold build_qubo_vectorized build_qubo_core quboTerm1 quboTerm2 quboTerm3 quboTerm4
  simp only [Matrix.add_apply, Matrix.of_apply, Matrix.diagonal_apply_ne _ hij,
    Matrix.diagonal_apply_ne _ hij.symm, if_neg hij, if_neg hij.symm]
  rw [sqDistVec_comm]

/-- C5 (witness): symmetry instantiated at the small concrete scenario. -/
theorem C5_symmetry_witness :
    wIdx0 ≠ wIdx1
      ∧ build_qubo_vectorized wCands 1 wPois 1 wCS 1 wIdx0 wIdx1
          = build_qubo_vectorized wCands 1 wPois 1 wCS 1 wIdx1 wIdx0 :=
  ⟨by decide, C5_symmetry wCands 1 wPois 1 wCS 1 wIdx0 wIdx1 (by decide)⟩

/-- C10: the matrix returned by `build_qubo_vectorized` does not depend on
its `num_poi` and `num_cs` parameters: all averaging is derived from the
lengths of the POI and charger arrays themselves. -/
theorem C10_ignores_counts (cands pois cs : List Node) (k p1 c1 p2 c2 : ℕ) :
    build_qubo_vectorized cands p1 pois c1 cs k
      = build_qubo_vectorized cands p2 pois c2 cs k := rfl

/-- C2 (counterexample): for `n = 2`, `k = 1`, the cardinality-term
contribution read back from the matrix is `-8` (not `0`) at the assignment
with exactly one bit set, and `0` (not strictly positive) at the all-zero
assignment: the quadratic expansion drops the constant `gamma4 * k^2`, so
the claim's "value 0 at exactly k bits, strictly positive otherwise" fails
as stated. -/
theorem C2_counterexample :
    countOnes ![true, false] = 1
      ∧ cardContribution 2 1 ![true, false] = -8
      ∧ (-8 : ℚ) ≠ 0
      ∧ countOnes ![false, false] = 0
      ∧ cardContribution 2 1 ![false, false] = 0
      ∧ ¬(0 : ℚ) > 0 := by
  refine ⟨by decide, ?_, by norm_num, by decide, ?_, by norm_num⟩
  · rw [cardContribution_eq, show countOnes ![true, false] = 1 from by decide]
    norm_num
  · rw [cardContribution_eq, show countOnes ![false, false] = 0 from by decide]
    norm_num

/-- C2 (amended): the cardinality-term contribution equals
`gamma4 * ((m - k)^2 - k^2)` where `m` is the number of set bits; after
restoring the constant `gamma4 * k^2` dropped by the quadratic expansion,
the total is `gamma4 * (m - k)^2`, which is `0` exactly when `m = k` and
strictly positive for every other bit count, so the term is minimized
exactly at `m = k` (up to that constant offset). -/
theorem C2_amended_cardinality (n k : ℕ) (x : Fin n → Bool) (h : 1 ≤ n) :
    cardContribution n k x + (n : ℚ) ^ 3 * (k : ℚ) ^ 2
        = (n : ℚ) ^ 3 * ((countOnes x : ℚ) - (k : ℚ)) ^ 2
      ∧ (cardContribution n k x + (n : ℚ) ^ 3 * (k : ℚ) ^ 2 = 0 ↔ countOnes x = k)
      ∧ (countOnes x ≠ k →
          0 < cardContribution n k x + (n : ℚ) ^ 3 * (k : ℚ) ^ 2) := by
  have heq : cardContribution n k x + (n : ℚ) ^ 3 * (k : ℚ) ^ 2
      = (n : ℚ) ^ 3 * ((countOnes x : ℚ) - (k : ℚ)) ^ 2 := by
    rw [cardContribution_eq]
    ring
  have hn : (0 : ℚ) < (n : ℚ) ^ 3 := by
    have h0 : (0 : ℚ) < (n : ℚ) := by exact_mod_cast h
    positivity
  refine ⟨heq, ?_, ?_⟩
  · rw [heq]
    constructor
    · intro h0
      rcases mul_eq_zero.mp h0 with hz | hz
      · exact absurd hz (ne_of_gt hn)
      · have hsub : (countOnes x : ℚ) - (k : ℚ) = 0 := sq_eq_zero_iff.mp hz
        have hck : (countOnes x : ℚ) = (k : ℚ) := by linarith
        exact_mod_cast hck
    · intro hk
      rw [hk]
      ring
  · intro hne
    have hsub : (countOnes x : ℚ) - (k : ℚ) ≠ 0 :=
      sub_ne_zero.mpr (Nat.cast_injective.ne hne)
    rw [heq]
    exact mul_pos hn (pow_two_pos_of_ne_zero hsub)

/-- C2 (witness for the amended statement): instantiated at `n = 2`,
`k = 1` and the assignment with both bits set. -/
theorem C2_amended_cardinality_witness :
    1 ≤ 2
      ∧ (cardContribution 2 1 ![true, true] + ((2 : ℕ) : ℚ) ^ 3 * ((1 : ℕ) : ℚ) ^ 2
          = ((2 : ℕ) : ℚ) ^ 3 * ((countOnes ![true, true] : ℚ) - ((1 : ℕ) : ℚ)) ^ 2
        ∧ (cardContribution 2 1 ![true, true] + ((2 : ℕ) : ℚ) ^ 3 * ((1 : ℕ) : ℚ) ^ 2 = 0
            ↔ countOnes ![true, true] = 1)
        ∧ (countOnes ![true, true] ≠ 1 →
            0 < cardContribution 2 1 ![true, true]
              + ((2 : ℕ) : ℚ) ^ 3 * ((1 : ℕ) : ℚ) ^ 2)) :=
  ⟨by norm_num, C2_amended_cardinality 2 1 ![true, true] (by norm_num)⟩

/-- C6: the candidate sequence of the scenario generator is the set of all
`w*h` grid nodes minus the existing chargers: no charger appears in it,
every non-charger grid node appears exactly once, and its length is
`w*h - c` for `c` distinct chargers drawn from the grid. -/
theorem C6_candidate_set (w h : ℕ) (cs : List Node) (s v : Node)
    (h1 : cs.Nodup) (h2 : ∀ x ∈ cs, x ∈ gridNodes w h)
    (hs : s ∈ cs) (hv : v ∈ gridNodes w h) (hvcs : v ∉ cs) :
    s ∉ potential_new_cs_nodes w h cs
      ∧ List.count v (potential_new_cs_nodes w h cs) = 1
      ∧ (potential_new_cs_nodes w h cs).length = w * h - cs.length := by
  unfold potential_new_cs_nodes
  refine ⟨?_, ?_, ?_⟩
  · intro hmem
    rw [List.mem_filter] at hmem
    exact (of_decide_eq_true hmem.2) hs
  · apply nodup_count_one ((nodup_gridNodes w h).filter _)
    rw [List.mem_filter]
    exact ⟨hv, decide_eq_true hvcs⟩
  · rw [length_filter_not_mem (nodup_gridNodes w h) h1 h2, length_gridNodes]

/-- C6 (witness): the spec's example scenario, a 5x5 grid with the single
existing charger (4,4): the charger is excluded, node (0,0) appears exactly
once, and the candidate sequence has `5*5 - 1 = 24` entries. -/
theorem C6_candidate_set_witness :
    ([((4 : ℤ), (4 : ℤ))] : List Node).Nodup
      ∧ ((4 : ℤ), (4 : ℤ)) ∈ ([((4 : ℤ), (4 : ℤ))] : List Node)
      ∧ ((0 : ℤ), (0 : ℤ)) ∈ gridNodes 5 5
      ∧ ((0 : ℤ), (0 : ℤ)) ∉ ([((4 : ℤ), (4 : ℤ))] : List Node)
      ∧ (((4 : ℤ), (4 : ℤ)) ∉ potential_new_cs_nodes 5 5 [((4 : ℤ), (4 : ℤ))]
        ∧ List.count ((0 : ℤ), (0 : ℤ))
            (potential_new_cs_nodes 5 5 [((4 : ℤ), (4 : ℤ))]) = 1
        ∧ (potential_new_cs_nodes 5 5 [((4 : ℤ), (4 : ℤ))]).length
            = 5 * 5 - ([((4 : ℤ), (4 : ℤ))] : List Node).length) :=
  ⟨by decide, by decide, by decide, by decide,
    C6_candidate_set 5 5 [((4 : ℤ), (4 : ℤ))] ((4 : ℤ), (4 : ℤ)) ((0 : ℤ), (0 : ℤ))
      (by decide) (by decide) (by decide) (by decide) (by decide)⟩

/-- C7: whenever the POI count exceeds `width*height`, or the charger count
plus the new-charger count exceeds `width*height`, `demo_numpy.py` prints
the infeasibility message and exits with status 0 before the QUBO builder
or the solver adapter is invoked. -/
theorem C7_infeasible_exit (a : Args) (pois cs : List Node)
    (h : a.poi > a.width * a.height
      ∨ a.chargers + a.new_chargers > a.width * a.height) :
    main_numpy a pois cs
      = NumpyOutcome.earlyExit "Grid size is not large enough for scenario." 0 := by
  unfold main_numpy read_in_args
  rw [if_pos h]

/-- C7 (witness): the spec's example, a 2x2 grid with 5 POIs requested. -/
theorem C7_infeasible_exit_witness :
    (wInfArgs.poi > wInfArgs.width * wInfArgs.height
        ∨ wInfArgs.chargers + wInfArgs.new_chargers > wInfArgs.width * wInfArgs.height)
      ∧ main_numpy wInfArgs [] []
          = NumpyOutcome.earlyExit "Grid size is not large enough for scenario." 0 :=
  ⟨by decide, C7_infeasible_exit wInfArgs [] [] (by decide)⟩

/-- C8 (counterexample): an empty solver response (no named sub-object at
all) does not make `demo_numpy.py`'s result decoding fail: the defaulting
`.get` lookups produce an empty configuration and decoding returns the
empty selection without raising. -/
theorem C8_counterexample :
    exceptIsError (numpyDecode [((0 : ℤ), (0 : ℤ))] none) = false
      ∧ numpyDecode [((0 : ℤ), (0 : ℤ))] none = Except.ok [] :=
  ⟨rfl, rfl⟩

/-- C8 (amended): `demo_numpy.py` performs no validation but uses
defaulting lookups, so a response missing the named sub-object or the
configuration entry decodes to the empty selection without error; `demo.py`
by contrast does fail unhandled on an empty response (`sampleset.first`
raises, and with fewer than two selected bits the summary block raises an
IndexError). -/
theorem C8_amended_decoding (cands : List Node) (resp : Option (Option (List ℕ)))
    (h : resp = none ∨ resp = some none) :
    numpyDecode cands resp = Except.ok []
      ∧ demoDecode cands none = Except.error "ValueError" := by
  refine ⟨?_, rfl⟩
  rcases h with rfl | rfl
  · rfl
  · rfl

/-- C8 (witness for the amended statement): instantiated at the fully empty
response. -/
theorem C8_amended_decoding_witness :
    ((none : Option (Option (List ℕ))) = none
        ∨ (none : Option (Option (List ℕ))) = some none)
      ∧ (numpyDecode [((0 : ℤ), (1 : ℤ))] none = Except.ok []
        ∧ demoDecode [((0 : ℤ), (1 : ℤ))] none = Except.error "ValueError") :=
  ⟨Or.inl rfl, C8_amended_decoding [((0 : ℤ), (1 : ℤ))] none (Or.inl rfl)⟩

/-- C9 (counterexample): supplying the non-integer seed string "abc" makes
`argparse` itself reject the value and exit with status 2, not the claimed
status 0: the script's own `Seed must be an integer.` branch never runs. -/
theorem C9_counterexample :
    demo_seed_pipeline (some "abc") = SeedOutcome.usageExit 2 ∧ (2 : ℕ) ≠ 0 := by
  refine ⟨?_, by decide⟩
  rfl

/-- C9 (amended): a non-integer seed string is rejected by `argparse`'s
`int` conversion, which exits with a usage error and status 2 before the
scenario generation runs; the script's in-line status-0 exit for a
non-integer seed is unreachable, because the parsed seed is always an
integer or absent. -/
theorem C9_amended_seed (s : String) (h : pyInt s = none) :
    demo_seed_pipeline (some s) = SeedOutcome.usageExit 2 := by
  show (match pyInt s with
    | some z => seed_check (some z)
    | none => SeedOutcome.usageExit 2) = SeedOutcome.usageExit 2
  rw [h]

/-- C9 (witness for the amended statement): instantiated at the seed string
"abc". -/
theorem C9_amended_seed_witness :
    pyInt "abc" = none ∧ demo_seed_pipeline (some "abc") = SeedOutcome.usageExit 2 :=
  ⟨rfl, C9_amended_seed "abc" rfl⟩
